import Mathlib

/-!
Shallow embedding of `src/tax_calculator/src/main.rs` (Indonesian tax
calculator).  The Rust code computes with `f64`; every constant the program
uses (tax rates 0.75% = 3/400, 5%, 11%, the PTKP table entries, the DPP
constant) and every value the claims mention are exactly representable, so
the arithmetic is modelled over `ℚ`.  `f64::round` rounds to the nearest
integer, halfway away from zero, which `f64_round` mirrors.  The `HashMap`
built by `get_ptkp_values` is modelled as the key → value function it
denotes (`String → Option ℚ`), and `.copied().unwrap_or(0.0)` as
`Option.getD _ 0`.
-/

/-- Model of Rust `f64::round`: nearest integer, halfway cases away from
zero. -/
def f64_round (x : ℚ) : ℚ :=
  if 0 ≤ x then ((⌊x + 1/2⌋ : ℤ) : ℚ) else ((⌈x - 1/2⌉ : ℤ) : ℚ)

/-- Largest finite `f64` (`f64::MAX`), used as the unbounded top bracket's
upper bound in `main`. -/
def f64_MAX : ℚ := 2 ^ 1024 - 2 ^ 971

/-- Embeds `get_ptkp_values` (main.rs lines 14–22): the `HashMap` from
status code to 2023 annual PTKP amount, as the lookup function the map
denotes. -/
def get_ptkp_values (key : String) : Option ℚ :=
  if key = "TK/0" then some 54000000
  else if key = "K/0" then some 58500000
  else if key = "K/1" then some 63000000
  else if key = "K/2" then some 67500000
  else if key = "K/3" then some 72000000
  else none

/-- The composite lookup the program performs:
`get_ptkp_values().get(&*ptkp_key).copied().unwrap_or(0.0)` — unknown codes
default to 0. -/
def lookup_ptkp (code : String) : ℚ :=
  (get_ptkp_values code).getD 0

/-- The status-code string `format!("{}/{}", if is_married {"K"} else {"TK"},
num_dependents)` built in `calculate_pph21` (main.rs lines 30–33). `Nat.repr`
matches the decimal `Display` of Rust's `u32`. -/
def ptkp_key (is_married : Bool) (num_dependents : ℕ) : String :=
  (if is_married then "K" else "TK") ++ "/" ++ Nat.repr num_dependents

/-- Embeds `calculate_pph21` (main.rs lines 25–45).  Returns
`(annual_tax, monthly_tax, ptkp, pkp)`. -/
def calculate_pph21 (gross_income : ℚ) (is_married : Bool)
    (num_dependents : ℕ) : ℚ × ℚ × ℚ × ℚ :=
  let monthly_gross := gross_income
  let annual_gross := monthly_gross * 12
  let ptkp := (get_ptkp_values (ptkp_key is_married num_dependents)).getD 0
  let pkp := max (annual_gross - ptkp) 0
  let pph_21_rate : ℚ := 0.75 / 100
  let annual_tax := f64_round (annual_gross * pph_21_rate)
  let monthly_tax := f64_round (monthly_gross * pph_21_rate)
  (annual_tax, monthly_tax, ptkp, pkp)

/-- Embeds the `TaxBracket` struct (main.rs lines 48–53). -/
structure TaxBracket where
  lower_bound : ℚ
  upper_bound : ℚ
  rate : ℚ

/-- Embeds `calculate_income_tax` (main.rs lines 56–69): iterate the
brackets, adding `(min income upper − lower) * rate` while
`income > lower`; the `else break` stops at the first bracket whose lower
bound income does not exceed. -/
def calculate_income_tax (income : ℚ) : List TaxBracket → ℚ
  | [] => 0
  | b :: rest =>
    if income > b.lower_bound then
      (min income b.upper_bound - b.lower_bound) * b.rate +
        calculate_income_tax income rest
    else 0

/-- Modelled from the spec (section 4.4), for comparison with
`calculate_income_tax`: sum, over the brackets taken in ascending order
while income exceeds the lower bound, of rate × (min(income, upper) −
lower); later brackets contribute nothing. -/
def spec_income_tax (income : ℚ) (brackets : List TaxBracket) : ℚ :=
  ((brackets.takeWhile fun b => decide (b.lower_bound < income)).map
    fun b => b.rate * (min income b.upper_bound - b.lower_bound)).sum

/-- Embeds `calculate_vat` (main.rs lines 72–74). -/
def calculate_vat (amount : ℚ) (vat_rate : ℚ) : ℚ :=
  amount * vat_rate / 100

/-- The fixed 2023 bracket table built in `main` (main.rs lines 176–181). -/
def tax_brackets : List TaxBracket :=
  [⟨0, 50000000, 0.05⟩,
   ⟨50000000, 250000000, 0.15⟩,
   ⟨250000000, 500000000, 0.25⟩,
   ⟨500000000, f64_MAX, 0.30⟩]

/-- Embeds the Gross-Up branch of `main` (main.rs lines 305–326): fixed
DPP 6,045,340; monthly tax = round(DPP × 0.75 / 100); gross salary =
net + monthly tax; annual tax = round(monthly tax × 12).  Returns
`(gross_salary, monthly_tax, annual_tax)`. -/
def gross_up (net_salary : ℚ) : ℚ × ℚ × ℚ :=
  let dpp : ℚ := 6045340
  let pph_21_percent : ℚ := 0.75
  let pph_21_monthly := f64_round (dpp * pph_21_percent / 100)
  let gross_salary := net_salary + pph_21_monthly
  let monthly_tax := pph_21_monthly
  let annual_tax := f64_round (monthly_tax * 12)
  (gross_salary, monthly_tax, annual_tax)

/-! ### Helper lemmas -/

/-- Rounding a non-negative rational yields a non-negative integer value. -/
lemma f64_round_nonneg {x : ℚ} (hx : 0 ≤ x) : 0 ≤ f64_round x := by
  unfold f64_round
  rw [if_pos hx]
  have h : (0 : ℤ) ≤ ⌊x + 1/2⌋ := Int.floor_nonneg.mpr (by linarith)
  exact_mod_cast h

/-- Every value the PTKP lookup can return is non-negative. -/
lemma lookup_ptkp_nonneg (code : String) : 0 ≤ lookup_ptkp code := by
  unfold lookup_ptkp get_ptkp_values
  split_ifs <;> norm_num

/-- `Nat.toDigitsCore` with positive fuel and empty accumulator returns at
least one character. -/
lemma toDigitsCore_length_pos (f m : ℕ) (hf : 0 < f) :
    0 < (Nat.toDigitsCore 10 f m []).length := by
  obtain ⟨g, rfl⟩ : ∃ g, f = g + 1 := ⟨f - 1, by omega⟩
  by_cases hm : m / 10 = 0
  · simp [Nat.toDigitsCore, hm]
  · simp [Nat.toDigitsCore, hm, Nat.toDigitsCore_lens_eq]

/-- If the decimal digit list of `n` is a single character `c`, then
`n < 10` and `c` is `n`'s digit character. -/
lemma toDigits_singleton (n : ℕ) (c : Char)
    (h : Nat.toDigits 10 n = [c]) : n < 10 ∧ c = Nat.digitChar n := by
  unfold Nat.toDigits at h
  by_cases h10 : n / 10 = 0
  · have hn : n < 10 := by omega
    simp [Nat.toDigitsCore, h10, Nat.mod_eq_of_lt hn] at h
    exact ⟨hn, h.symm⟩
  · exfalso
    simp only [Nat.toDigitsCore, h10, if_false] at h
    have hlen := congrArg List.length h
    rw [Nat.toDigitsCore_lens_eq] at hlen
    have hpos : 0 < (Nat.toDigitsCore 10 n (n / 10) []).length := by
      apply toDigitsCore_length_pos
      omega
    simp only [List.length_singleton] at hlen
    omega

/-- If `Nat.repr n` is the one-character string of `c`, then `n < 10` and
`c` is `n`'s digit character. -/
lemma repr_singleton (n : ℕ) (c : Char)
    (h : (Nat.repr n).data = [c]) : n < 10 ∧ c = Nat.digitChar n := by
  apply toDigits_singleton
  simpa [Nat.repr, List.asString] using h

/-- Evaluation rule for `f64_round` on a non-negative argument whose
rounded value is `n`. -/
lemma f64_round_eq {x : ℚ} {n : ℤ} (hx : 0 ≤ x) (h1 : (n : ℚ) ≤ x + 1/2)
    (h2 : x + 1/2 < n + 1) : f64_round x = (n : ℚ) := by
  unfold f64_round
  rw [if_pos hx]
  have h : ⌊x + 1/2⌋ = n := Int.floor_eq_iff.mpr ⟨h1, by exact_mod_cast h2⟩
  rw [h]

/-- The character data of `Nat.repr` is the decimal digit list. -/
lemma repr_data (d : ℕ) : (Nat.repr d).data = Nat.toDigits 10 d := rfl

/-- Character data of the unmarried status code. -/
lemma ptkp_key_false_data (d : ℕ) :
    (ptkp_key false d).data = 'T' :: 'K' :: '/' :: Nat.toDigits 10 d := by
  have h : ptkp_key false d = "TK" ++ "/" ++ Nat.repr d := rfl
  rw [h, String.data_append, String.data_append, repr_data]
  rfl

/-- Character data of the married status code. -/
lemma ptkp_key_true_data (d : ℕ) :
    (ptkp_key true d).data = 'K' :: '/' :: Nat.toDigits 10 d := by
  have h : ptkp_key true d = "K" ++ "/" ++ Nat.repr d := rfl
  rw [h, String.data_append, String.data_append, repr_data]
  rfl

/-- An unmarried status code with at least one dependent is absent from
the PTKP table. -/
lemma get_ptkp_values_unmarried (d : ℕ) (hd : d ≠ 0) :
    get_ptkp_values (ptkp_key false d) = none := by
  have hdata := ptkp_key_false_data d
  have h0 : ptkp_key false d ≠ "TK/0" := by
    intro he
    have h1 := congrArg String.data he
    rw [hdata] at h1
    have hdig : Nat.toDigits 10 d = ['0'] := congrArg (List.drop 3) h1
    obtain ⟨hlt, hc⟩ := toDigits_singleton d '0' hdig
    interval_cases d
    · exact hd rfl
    all_goals exact absurd hc (by decide)
  have hK : ∀ s : String, s.data.head? = some 'K' → ptkp_key false d ≠ s := by
    intro s hs he
    have h1 := congrArg String.data he
    rw [hdata] at h1
    have hh : (some 'T' : Option Char) = some 'K' := by
      rw [← hs]
      exact congrArg List.head? h1
    exact absurd hh (by decide)
  simp [get_ptkp_values, h0, hK "K/0" rfl, hK "K/1" rfl, hK "K/2" rfl,
    hK "K/3" rfl]

/-- A married status code with four or more dependents is absent from the
PTKP table. -/
lemma get_ptkp_values_married (d : ℕ) (hd : 4 ≤ d) :
    get_ptkp_values (ptkp_key true d) = none := by
  have hdata := ptkp_key_true_data d
  have hT : ptkp_key true d ≠ "TK/0" := by
    intro he
    have h1 := congrArg String.data he
    rw [hdata] at h1
    have hh : (some 'K' : Option Char) = some 'T' := congrArg List.head? h1
    exact absurd hh (by decide)
  have hdig : ∀ c : Char, ptkp_key true d = { data := ['K', '/', c] } →
      Nat.toDigits 10 d = [c] := by
    intro c he
    have h1 := congrArg String.data he
    rw [hdata] at h1
    exact congrArg (List.drop 2) h1
  have h0 : ptkp_key true d ≠ "K/0" := by
    intro he
    obtain ⟨hlt, hc⟩ := toDigits_singleton d '0' (hdig '0' he)
    interval_cases d <;> exact absurd hc (by decide)
  have h1 : ptkp_key true d ≠ "K/1" := by
    intro he
    obtain ⟨hlt, hc⟩ := toDigits_singleton d '1' (hdig '1' he)
    interval_cases d <;> exact absurd hc (by decide)
  have h2 : ptkp_key true d ≠ "K/2" := by
    intro he
    obtain ⟨hlt, hc⟩ := toDigits_singleton d '2' (hdig '2' he)
    interval_cases d <;> exact absurd hc (by decide)
  have h3 : ptkp_key true d ≠ "K/3" := by
    intro he
    obtain ⟨hlt, hc⟩ := toDigits_singleton d '3' (hdig '3' he)
    interval_cases d <;> exact absurd hc (by decide)
  simp [get_ptkp_values, hT, h0, h1, h2, h3]

/-- The `calculate_income_tax` loop agrees with the spec's takeWhile/sum
description on every income and bracket list. -/
lemma income_tax_eq_spec (income : ℚ) :
    ∀ brackets : List TaxBracket,
      calculate_income_tax income brackets = spec_income_tax income brackets
  | [] => by simp [calculate_income_tax, spec_income_tax]
  | b :: rest => by
    by_cases h : b.lower_bound < income
    · simp [calculate_income_tax, spec_income_tax, List.takeWhile, h,
        GT.gt, income_tax_eq_spec income rest]
      ring
    · simp [calculate_income_tax, spec_income_tax, List.takeWhile, h, GT.gt]

/-! ### Claim theorems -/

/-- C1: for every monthly gross income g ≥ 0, married flag and dependents
count, `calculate_pph21` returns `(annual_tax, monthly_tax, ptkp, pkp)`
with ptkp the lookup of the status code, pkp = max(0, g×12 − ptkp),
monthly_tax = round(g × 0.0075), annual_tax = round(g×12 × 0.0075)
(tax on gross, not on pkp), and all four components non-negative. -/
theorem calculate_pph21_formula (g : ℚ) (m : Bool) (d : ℕ) (hg : 0 ≤ g) :
    calculate_pph21 g m d =
      (f64_round (g * 12 * (0.75 / 100)), f64_round (g * (0.75 / 100)),
        lookup_ptkp (ptkp_key m d),
        max (g * 12 - lookup_ptkp (ptkp_key m d)) 0) ∧
      0 ≤ (calculate_pph21 g m d).1 ∧ 0 ≤ (calculate_pph21 g m d).2.1 ∧
      0 ≤ (calculate_pph21 g m d).2.2.1 ∧ 0 ≤ (calculate_pph21 g m d).2.2.2 := by
  refine ⟨rfl, ?_, ?_, ?_, ?_⟩
  · exact f64_round_nonneg (mul_nonneg (mul_nonneg hg (by norm_num)) (by norm_num))
  · exact f64_round_nonneg (mul_nonneg hg (by norm_num))
  · exact lookup_ptkp_nonneg _
  · exact le_max_right _ 0

/-- C1 witness: the formula theorem instantiated at gross income 3. -/
theorem calculate_pph21_formula_witness :
    calculate_pph21 3 false 0 =
      (f64_round (3 * 12 * (0.75 / 100)), f64_round (3 * (0.75 / 100)),
        lookup_ptkp (ptkp_key false 0),
        max (3 * 12 - lookup_ptkp (ptkp_key false 0)) 0) ∧
      0 ≤ (calculate_pph21 3 false 0).1 ∧ 0 ≤ (calculate_pph21 3 false 0).2.1 ∧
      0 ≤ (calculate_pph21 3 false 0).2.2.1 ∧
      0 ≤ (calculate_pph21 3 false 0).2.2.2 :=
  calculate_pph21_formula 3 false 0 (by norm_num)

/-- C2: `calculate_income_tax` equals the spec's reference description —
the sum, over brackets taken in order while income strictly exceeds the
lower bound, of rate × (min(income, upper) − lower), later brackets
contributing nothing — for every income and bracket list (in particular
every ordered contiguous ascending one), with no rounding. -/
theorem calculate_income_tax_matches_spec (income : ℚ)
    (brackets : List TaxBracket) :
    calculate_income_tax income brackets = spec_income_tax income brackets :=
  income_tax_eq_spec income brackets

/-- C3: in gross-up mode the monthly tax is round(6,045,340 × 0.0075)
= 45,340 for every requested net salary n ≥ 0, the gross salary is
n + 45,340, and the annual tax is monthly tax × 12; the DPP constant is
fixed, never derived from n. -/
theorem gross_up_spec (n : ℚ) (hn : 0 ≤ n) :
    (gross_up n).2.1 = f64_round (6045340 * 0.75 / 100) ∧
    (gross_up n).2.1 = 45340 ∧
    (gross_up n).1 = n + 45340 ∧
    (gross_up n).2.2 = (gross_up n).2.1 * 12 := by
  have hm : f64_round (6045340 * 0.75 / 100) = (45340 : ℚ) := by
    have h := f64_round_eq (x := 6045340 * 0.75 / 100) (n := 45340)
      (by norm_num) (by norm_num) (by norm_num)
    exact_mod_cast h
  have ha : f64_round ((45340 : ℚ) * 12) = (544080 : ℚ) := by
    have h := f64_round_eq (x := (45340 : ℚ) * 12) (n := 544080)
      (by norm_num) (by norm_num) (by norm_num)
    exact_mod_cast h
  simp only [gross_up]
  rw [hm]
  refine ⟨trivial, rfl, rfl, ?_⟩
  rw [ha]
  norm_num

/-- C3 witness: the gross-up theorem instantiated at net salary 6,000,000. -/
theorem gross_up_spec_witness :
    (gross_up 6000000).2.1 = f64_round (6045340 * 0.75 / 100) ∧
    (gross_up 6000000).2.1 = 45340 ∧
    (gross_up 6000000).1 = 6000000 + 45340 ∧
    (gross_up 6000000).2.2 = (gross_up 6000000).2.1 * 12 :=
  gross_up_spec 6000000 (by norm_num)

/-- C4: the PTKP lookup maps the five known status codes to their exact
2023 amounts and every other string to 0, with no error. -/
theorem ptkp_lookup_table :
    lookup_ptkp "TK/0" = 54000000 ∧ lookup_ptkp "K/0" = 58500000 ∧
    lookup_ptkp "K/1" = 63000000 ∧ lookup_ptkp "K/2" = 67500000 ∧
    lookup_ptkp "K/3" = 72000000 ∧
    ∀ s : String, s ∉ ["TK/0", "K/0", "K/1", "K/2", "K/3"] →
      lookup_ptkp s = 0 := by
  refine ⟨by simp [lookup_ptkp, get_ptkp_values], by simp [lookup_ptkp, get_ptkp_values],
    by simp [lookup_ptkp, get_ptkp_values], by simp [lookup_ptkp, get_ptkp_values],
    by simp [lookup_ptkp, get_ptkp_values], ?_⟩
  intro s hs
  simp only [List.mem_cons, List.mem_singleton, not_or] at hs
  obtain ⟨n1, n2, n3, n4, n5⟩ := hs
  simp [lookup_ptkp, get_ptkp_values, n1, n2, n3, n4, n5]

/-- C4 witness: the unknown-code clause instantiated at the code "X/9". -/
theorem ptkp_lookup_table_witness : lookup_ptkp "X/9" = 0 :=
  ptkp_lookup_table.2.2.2.2.2 "X/9" (by decide)

/-- C5: on the fixed 2023 bracket table, every income ≤ 0 is taxed 0; and
at the boundary income 50,000,000 the total tax is exactly the first
bracket's full span 0.05 × (50,000,000 − 0) — the bracket starting at the
boundary contributes nothing, because the lower-bound comparison is a
strict greater-than. -/
theorem income_tax_zero_and_boundary :
    (∀ income : ℚ, income ≤ 0 →
      calculate_income_tax income tax_brackets = 0) ∧
    calculate_income_tax 50000000 tax_brackets =
      (min (50000000 : ℚ) 50000000 - 0) * 0.05 ∧
    calculate_income_tax 50000000 tax_brackets = 2500000 := by
  refine ⟨?_, ?_, ?_⟩
  · intro income h
    have hn : ¬ ((0 : ℚ) < income) := not_lt.mpr h
    simp [calculate_income_tax, tax_brackets, hn]
  · norm_num [calculate_income_tax, tax_brackets]
  · norm_num [calculate_income_tax, tax_brackets]

/-- C5 witness: the non-positive-income clause instantiated at −1. -/
theorem income_tax_zero_and_boundary_witness :
    calculate_income_tax (-1) tax_brackets = 0 :=
  income_tax_zero_and_boundary.1 (-1) (by norm_num)

/-- C6: `calculate_pph21` on the three specified inputs returns exactly
the specified values (tuple order: annual tax, monthly tax, PTKP, PKP). -/
theorem calculate_pph21_examples :
    calculate_pph21 6000000 false 0 = (540000, 45000, 54000000, 18000000) ∧
    calculate_pph21 10000000 true 2 = (900000, 75000, 67500000, 52500000) ∧
    calculate_pph21 0 false 0 = (0, 0, 54000000, 0) := by
  have hv0 : get_ptkp_values (ptkp_key false 0) = some 54000000 := rfl
  have hv2 : get_ptkp_values (ptkp_key true 2) = some 67500000 := rfl
  refine ⟨?_, ?_, ?_⟩
  · simp only [calculate_pph21, hv0, Option.getD_some]
    norm_num
    exact ⟨f64_round_eq (by norm_num) (by norm_num) (by norm_num),
      f64_round_eq (by norm_num) (by norm_num) (by norm_num)⟩
  · simp only [calculate_pph21, hv2, Option.getD_some]
    norm_num
    exact ⟨f64_round_eq (by norm_num) (by norm_num) (by norm_num),
      f64_round_eq (by norm_num) (by norm_num) (by norm_num)⟩
  · have h0 : f64_round (0 : ℚ) = (0 : ℚ) := by
      have h := f64_round_eq (x := (0 : ℚ)) (n := 0) (by norm_num)
        (by norm_num) (by norm_num)
      exact_mod_cast h
    simp only [calculate_pph21, hv0, Option.getD_some]
    norm_num [h0]

/-- C7: `calculate_vat` is amount × rate / 100 for all inputs; in
particular it maps (100, 11) to 11 and (0, rate) to 0 for every rate. -/
theorem calculate_vat_props :
    (∀ amount rate : ℚ, calculate_vat amount rate = amount * rate / 100) ∧
    calculate_vat 100 11 = 11 ∧
    (∀ rate : ℚ, calculate_vat 0 rate = 0) :=
  ⟨fun _ _ => rfl, by norm_num [calculate_vat],
    fun rate => by simp [calculate_vat]⟩

/-- C8: the three core calculators are total on non-negative numeric
inputs: each is a total function in the embedding (every Rust operation
they perform — `f64` arithmetic, the `HashMap` lookup with its
`unwrap_or(0.0)` default, slice iteration — is total), so a result always
exists and no panic path is reachable. -/
theorem calculators_total (g : ℚ) (m : Bool) (d : ℕ) (income : ℚ)
    (brackets : List TaxBracket) (amount rate : ℚ)
    (hg : 0 ≤ g) (hi : 0 ≤ income) (ha : 0 ≤ amount) :
    ∃ r1 : ℚ × ℚ × ℚ × ℚ, ∃ r2 r3 : ℚ,
      calculate_pph21 g m d = r1 ∧
      calculate_income_tax income brackets = r2 ∧
      calculate_vat amount rate = r3 :=
  ⟨_, _, _, rfl, rfl, rfl⟩

/-- C8 witness: totality instantiated at concrete non-negative inputs. -/
theorem calculators_total_witness :
    ∃ r1 : ℚ × ℚ × ℚ × ℚ, ∃ r2 r3 : ℚ,
      calculate_pph21 1 false 0 = r1 ∧
      calculate_income_tax 1 tax_brackets = r2 ∧
      calculate_vat 1 11 = r3 :=
  calculators_total 1 false 0 1 tax_brackets 1 11 (by norm_num) (by norm_num)
    (by norm_num)

/-- C9: `calculate_pph21` performs no input clamping: when the pair
(married, dependents) forms none of the five known status codes —
unmarried with ≥ 1 dependent, or married with ≥ 4 dependents — the
returned PTKP is 0 and the returned PKP is the full annual gross g×12. -/
theorem calculate_pph21_unknown_status (g : ℚ) (m : Bool) (d : ℕ)
    (hg : 0 ≤ g)
    (hu : (m = false ∧ 1 ≤ d) ∨ (m = true ∧ 4 ≤ d)) :
    (calculate_pph21 g m d).2.2.1 = 0 ∧
    (calculate_pph21 g m d).2.2.2 = g * 12 := by
  have hnone : get_ptkp_values (ptkp_key m d) = none := by
    rcases hu with ⟨hm, hd⟩ | ⟨hm, hd⟩
    · subst hm
      exact get_ptkp_values_unmarried d (by omega)
    · subst hm
      exact get_ptkp_values_married d hd
  refine ⟨?_, ?_⟩
  · show (calculate_pph21 g m d).2.2.1 = 0
    simp [calculate_pph21, hnone]
  · show (calculate_pph21 g m d).2.2.2 = g * 12
    simp only [calculate_pph21, hnone, Option.getD_none, sub_zero]
    exact max_eq_left (mul_nonneg hg (by norm_num))

/-- C9 witness: unmarried with one dependent at gross income 5. -/
theorem calculate_pph21_unknown_status_witness :
    (calculate_pph21 5 false 1).2.2.1 = 0 ∧
    (calculate_pph21 5 false 1).2.2.2 = 5 * 12 :=
  calculate_pph21_unknown_status 5 false 1 (by norm_num)
    (Or.inl ⟨rfl, by norm_num⟩)

/-- C10: because the monthly and annual taxes are rounded independently,
there is a non-negative gross income (g = 100) at which the annual tax
returned by `calculate_pph21` differs from 12 × the monthly tax. -/
theorem annual_tax_ne_twelve_monthly :
    ∃ g : ℚ, 0 ≤ g ∧
      (calculate_pph21 g false 0).1 ≠ 12 * (calculate_pph21 g false 0).2.1 := by
  refine ⟨100, by norm_num, ?_⟩
  have hk0 : ptkp_key false 0 = "TK/0" := rfl
  have h9 : f64_round ((100 : ℚ) * 12 * (0.75 / 100)) = ((9 : ℤ) : ℚ) :=
    f64_round_eq (by norm_num) (by norm_num) (by norm_num)
  have h1 : f64_round ((100 : ℚ) * (0.75 / 100)) = ((1 : ℤ) : ℚ) :=
    f64_round_eq (by norm_num) (by norm_num) (by norm_num)
  simp only [calculate_pph21, hk0, get_ptkp_values, h9, h1]
  norm_num
